import Mathlib

/-!
Shallow embedding of the five scripts of the repository (01_simple_rag.py,
02_rag_using_chat_engine.py, 03_rag_chatbot.py, 04_custom_rag.py,
05_basic_Agent.py).  Each script is a straight-line list of statements
mirroring its source lines; an interpreter produces the trace of observable
effects (documents read, persistent writes, blocking LLM calls, printed
lines).  External behaviour (the document loader, the remote LLM, standard
input) is an environment parameter; a failing library call aborts the run
with an exception that carries the state reached so far, mirroring an
uncaught Python exception.
-/

namespace LlamaScripts

/-- Observable effects of a run.  `blockingCall` is a script-level blocking
network call issued for a query, chat or agent message; `persistWrite` is a
write of a vector collection into a persistent store directory;
`prompted` is the stdout prompt written by `input`. -/
inductive Event where
  | envLoaded : Event
  | docsRead : String → Event
  | persistOpened : String → Event
  | collectionCreated : String → Event
  | indexBuilt : Event
  | persistWrite : String → String → Event
  | blockingCall : String → Event
  | prompted : String → Event
  | printed : String → Event
  deriving DecidableEq

/-- Statements of the scripts.  Each constructor corresponds to one source
statement kind.  `tryCatch` is the Python `try/except` form; it exists in
the language so that its absence from every script is a statement about the
source, not a vacuity of the embedding. -/
inductive Stmt where
  | loadDotenv : Stmt
  | makeLLM : String → Option ℚ → Option ℕ → Stmt
  | loadDocs : String → Stmt
  | initPersistentClient : String → Stmt
  | getOrCreateCollection : String → Stmt
  | makeChromaVectorStore : Stmt
  | makeStorageContext : Stmt
  | buildIndex : Stmt
  | makeQueryEngine : Stmt
  | makeChatEngine : String → Stmt
  | queryCall : String → Stmt
  | chatCall : String → Stmt
  | agentChat : String → Stmt
  | printResponse : Stmt
  | printString : String → Stmt
  | defFunctionTool : String → Stmt
  | makeReActAgent : List String → Stmt
  | interactiveLoop : String → Stmt
  | tryCatch : Stmt → Stmt → Stmt
  deriving DecidableEq

/-- Interpreter state: trace of events plus the data that flows between
statements (the last response, and the persistence wiring of script 04). -/
structure St where
  events : List Event
  lastResponse : String
  persistPath : Option String
  collectionName : Option String
  hasStorage : Bool
  deriving DecidableEq

/-- The external world: the document loader, the remote LLM, and the lines
available on standard input. -/
structure Env where
  docs : String → Except String (List String)
  respond : String → Except String String
  stdin : List String

/-- Result of a run: normal completion, or an uncaught exception together
with the state reached when it was raised. -/
inductive Res where
  | ok : St → Res
  | exn : String → St → Res
  deriving DecidableEq

def finalSt : Res → St
  | Res.ok st => st
  | Res.exn _ st => st

def isOk : Res → Bool
  | Res.ok _ => true
  | Res.exn _ _ => false

def errOf : Res → Option String
  | Res.ok _ => none
  | Res.exn e _ => some e

def initSt : St := ⟨[], "", none, none, false⟩

/-- The `while True` loop of 03_rag_chatbot.py: prompt and read a line;
break if it equals the sentinel; otherwise issue one chat call and print
one `Agent: ` line, then repeat.  Exhausting standard input raises
`EOFError`, as `input` does in Python. -/
def chatLoopRun (env : Env) (sent : String) : List String → St → Res
  | [], st => Res.exn "EOFError" { st with events := st.events ++ [Event.prompted "User: "] }
  | l :: rest, st =>
      if l = sent then
        Res.ok { st with events := st.events ++ [Event.prompted "User: "] }
      else
        match env.respond l with
        | Except.error e =>
            Res.exn e { st with events := st.events ++ [Event.prompted "User: "] }
        | Except.ok r =>
            chatLoopRun env sent rest
              { st with
                  events := st.events ++ [Event.prompted "User: ",
                    Event.blockingCall l, Event.printed ("Agent: " ++ r)],
                  lastResponse := r }

/-- A query, chat or agent call: one blocking network call; the response
becomes the last response, and a failure propagates. -/
def llmStep (env : Env) (q : String) (st : St) : Res :=
  match env.respond q with
  | Except.error e => Res.exn e st
  | Except.ok r =>
      Res.ok { st with events := st.events ++ [Event.blockingCall q], lastResponse := r }

def exec (env : Env) : Stmt → St → Res
  | Stmt.loadDotenv, st => Res.ok { st with events := st.events ++ [Event.envLoaded] }
  | Stmt.makeLLM _ _ _, st => Res.ok st
  | Stmt.loadDocs dir, st =>
      match env.docs dir with
      | Except.error e => Res.exn e st
      | Except.ok _ => Res.ok { st with events := st.events ++ [Event.docsRead dir] }
  | Stmt.initPersistentClient p, st =>
      Res.ok { st with events := st.events ++ [Event.persistOpened p], persistPath := some p }
  | Stmt.getOrCreateCollection c, st =>
      Res.ok { st with
        events := st.events ++ [Event.collectionCreated c],
        collectionName := some c }
  | Stmt.makeChromaVectorStore, st => Res.ok st
  | Stmt.makeStorageContext, st => Res.ok { st with hasStorage := true }
  | Stmt.buildIndex, st =>
      match st.hasStorage, st.persistPath, st.collectionName with
      | true, some p, some c =>
          Res.ok { st with events := st.events ++ [Event.indexBuilt, Event.persistWrite p c] }
      | _, _, _ => Res.ok { st with events := st.events ++ [Event.indexBuilt] }
  | Stmt.makeQueryEngine, st => Res.ok st
  | Stmt.makeChatEngine _, st => Res.ok st
  | Stmt.queryCall q, st => llmStep env q st
  | Stmt.chatCall q, st => llmStep env q st
  | Stmt.agentChat q, st => llmStep env q st
  | Stmt.printResponse, st =>
      Res.ok { st with events := st.events ++ [Event.printed st.lastResponse] }
  | Stmt.printString s, st => Res.ok { st with events := st.events ++ [Event.printed s] }
  | Stmt.defFunctionTool _, st => Res.ok st
  | Stmt.makeReActAgent _, st => Res.ok st
  | Stmt.interactiveLoop sent, st => chatLoopRun env sent env.stdin st
  | Stmt.tryCatch b h, st =>
      match exec env b st with
      | Res.ok st1 => Res.ok st1
      | Res.exn _ st1 => exec env h st1

def execList (env : Env) : List Stmt → St → Res
  | [], st => Res.ok st
  | s :: rest, st =>
      match exec env s st with
      | Res.ok st1 => execList env rest st1
      | Res.exn e st1 => Res.exn e st1

def run (env : Env) (prog : List Stmt) : Res := execList env prog initSt

/-- The hard-coded query of scripts 01, 02 and 04. -/
def mainQuery : String := "What are the design goals and give details about it please."

/-- The hard-coded agent message of script 05. -/
def agentQuery : String := "What is 20+(2*4) / (5 - 1)? Use a tool to calculate every step."

/-- 01_simple_rag.py. -/
def script01 : List Stmt :=
  [Stmt.loadDotenv,
   Stmt.makeLLM "gpt-3.5-turbo" none none,
   Stmt.loadDocs "pdf/",
   Stmt.buildIndex,
   Stmt.makeQueryEngine,
   Stmt.queryCall mainQuery,
   Stmt.printResponse]

/-- 02_rag_using_chat_engine.py. -/
def script02 : List Stmt :=
  [Stmt.loadDotenv,
   Stmt.makeLLM "gpt-3.5-turbo" none none,
   Stmt.loadDocs "pdf/",
   Stmt.buildIndex,
   Stmt.makeChatEngine "best",
   Stmt.chatCall mainQuery,
   Stmt.printResponse]

/-- 03_rag_chatbot.py. -/
def script03 : List Stmt :=
  [Stmt.loadDotenv,
   Stmt.makeLLM "gpt-3.5-turbo" (some 0) none,
   Stmt.loadDocs "pdf/",
   Stmt.buildIndex,
   Stmt.makeChatEngine "condense_question",
   Stmt.interactiveLoop "exit"]

/-- 04_custom_rag.py. -/
def script04 : List Stmt :=
  [Stmt.loadDotenv,
   Stmt.loadDocs "pdf/",
   Stmt.initPersistentClient "./chroma_db",
   Stmt.getOrCreateCollection "quickstart",
   Stmt.makeChromaVectorStore,
   Stmt.makeStorageContext,
   Stmt.makeLLM "gpt-3.5-turbo" (some (1/10)) (some 512),
   Stmt.buildIndex,
   Stmt.makeQueryEngine,
   Stmt.queryCall mainQuery,
   Stmt.printString "***********",
   Stmt.printResponse]

/-- 05_basic_Agent.py. -/
def script05 : List Stmt :=
  [Stmt.loadDotenv,
   Stmt.makeLLM "gpt-3.5-turbo" (some 0) none,
   Stmt.defFunctionTool "multiply",
   Stmt.defFunctionTool "add",
   Stmt.defFunctionTool "subtract",
   Stmt.defFunctionTool "divide",
   Stmt.makeReActAgent ["multiply", "add", "subtract", "divide"],
   Stmt.agentChat agentQuery,
   Stmt.printResponse]

def allScripts : List (List Stmt) := [script01, script02, script03, script04, script05]

/-- Texts of the blocking LLM calls in a trace. -/
def blockingTexts (evs : List Event) : List String :=
  evs.filterMap fun e => match e with
    | Event.blockingCall q => some q
    | _ => none

/-- Lines printed by `print` in a trace (prompts excluded, as in the source
they are written by `input`, not `print`). -/
def printedLines (evs : List Event) : List String :=
  evs.filterMap fun e => match e with
    | Event.printed s => some s
    | _ => none

/-- Persistent-store writes (directory path, collection name) in a trace. -/
def persistWrites (evs : List Event) : List (String × String) :=
  evs.filterMap fun e => match e with
    | Event.persistWrite p c => some (p, c)
    | _ => none

/-- Whether a statement is a `try/except` handler. -/
def containsHandler : Stmt → Bool
  | Stmt.tryCatch _ _ => true
  | _ => false

/-- Whether a statement is free of persistent-store setup (recursing into
`try/except` bodies). -/
def persistFreeStmt : Stmt → Bool
  | Stmt.initPersistentClient _ => false
  | Stmt.tryCatch b h => persistFreeStmt b && persistFreeStmt h
  | _ => true

/-- Whether a script constructs a persistent vector-store client. -/
def usesPersistentClient (sc : List Stmt) : Bool :=
  sc.any fun s => match s with
    | Stmt.initPersistentClient _ => true
    | _ => false

/-- An environment in which every library call succeeds: the loader returns
`ds`, the LLM answers `f q` to query `q`, and `stdinL` is standard input. -/
def pureEnv (f : String → String) (ds : List String) (stdinL : List String) : Env :=
  ⟨fun _ => Except.ok ds, fun q => Except.ok (f q), stdinL⟩

/-- A concrete successful environment used for concrete evaluations. -/
def cEnv : Env := pureEnv (fun _ => "resp") ["doc"] []

/-- A concrete failing environment: the document loader and the LLM fail. -/
def failEnv : Env :=
  ⟨fun _ => Except.error "FileNotFoundError", fun _ => Except.error "APIError", []⟩

/-- Reference trace of the interactive loop on a given input list, when
every chat call succeeds with responder `f`. -/
def loopEvents (f : String → String) (sent : String) : List String → List Event
  | [] => [Event.prompted "User: "]
  | l :: rest =>
      if l = sent then [Event.prompted "User: "]
      else Event.prompted "User: " :: Event.blockingCall l ::
        Event.printed ("Agent: " ++ f l) :: loopEvents f sent rest

/-- The arithmetic tools of 05_basic_Agent.py, modelled over `ℚ`. -/
def multiply (a b : ℚ) : ℚ := a * b

def add (a b : ℚ) : ℚ := a + b

def subtract (a b : ℚ) : ℚ := a - b

/-- `divide` of 05_basic_Agent.py: Python raises `ZeroDivisionError` on a
zero divisor, otherwise returns the quotient. -/
def divide (a b : ℚ) : Except String ℚ :=
  if b = 0 then Except.error "ZeroDivisionError" else Except.ok (a / b)

/-! ## Small computation lemmas -/

theorem pureEnv_respond (f : String → String) (ds stdinL : List String) (q : String) :
    (pureEnv f ds stdinL).respond q = Except.ok (f q) := rfl

theorem blockingTexts_nil : blockingTexts [] = [] := rfl

theorem blockingTexts_prompted (s : String) (evs : List Event) :
    blockingTexts (Event.prompted s :: evs) = blockingTexts evs := rfl

theorem blockingTexts_call (q : String) (evs : List Event) :
    blockingTexts (Event.blockingCall q :: evs) = q :: blockingTexts evs := rfl

theorem blockingTexts_printed (s : String) (evs : List Event) :
    blockingTexts (Event.printed s :: evs) = blockingTexts evs := rfl

theorem blockingTexts_append (a b : List Event) :
    blockingTexts (a ++ b) = blockingTexts a ++ blockingTexts b := by
  simp [blockingTexts]

theorem printedLines_nil : printedLines [] = [] := rfl

theorem printedLines_prompted (s : String) (evs : List Event) :
    printedLines (Event.prompted s :: evs) = printedLines evs := rfl

theorem printedLines_call (q : String) (evs : List Event) :
    printedLines (Event.blockingCall q :: evs) = printedLines evs := rfl

theorem printedLines_printed (s : String) (evs : List Event) :
    printedLines (Event.printed s :: evs) = s :: printedLines evs := rfl

theorem printedLines_append (a b : List Event) :
    printedLines (a ++ b) = printedLines a ++ printedLines b := by
  simp [printedLines]

theorem persistWrites_append (a b : List Event) :
    persistWrites (a ++ b) = persistWrites a ++ persistWrites b := by
  simp [persistWrites]

theorem exec_tryCatch (env : Env) (b h : Stmt) (st : St) :
    exec env (Stmt.tryCatch b h) st
      = match exec env b st with
        | Res.ok st1 => Res.ok st1
        | Res.exn _ st1 => exec env h st1 := rfl

theorem exec_interactiveLoop (env : Env) (sent : String) (st : St) :
    exec env (Stmt.interactiveLoop sent) st = chatLoopRun env sent env.stdin st := rfl

theorem execList_cons (env : Env) (s : Stmt) (rest : List Stmt) (st : St) :
    execList env (s :: rest) st
      = match exec env s st with
        | Res.ok st1 => execList env rest st1
        | Res.exn e st1 => Res.exn e st1 := rfl

theorem execList_nil (env : Env) (st : St) : execList env [] st = Res.ok st := rfl

theorem exec_loadDocs (env : Env) (dir : String) (st : St) :
    exec env (Stmt.loadDocs dir) st
      = match env.docs dir with
        | Except.error e => Res.exn e st
        | Except.ok _ => Res.ok { st with events := st.events ++ [Event.docsRead dir] } := rfl

/-! ## Lemmas about the interactive loop -/

theorem loop_events_pure (f : String → String) (ds stdinL : List String) (sent : String) :
    ∀ (lines : List String) (st : St),
      (finalSt (chatLoopRun (pureEnv f ds stdinL) sent lines st)).events
        = st.events ++ loopEvents f sent lines := by
  intro lines
  induction lines with
  | nil => intro st; simp [chatLoopRun, finalSt, loopEvents]
  | cons l rest ih =>
      intro st
      by_cases hl : l = sent
      · simp [chatLoopRun, hl, finalSt, loopEvents]
      · simp only [chatLoopRun, hl, ite_false, pureEnv_respond, if_neg hl]
        rw [ih]
        simp [loopEvents, hl]

theorem loop_isOk_pure (f : String → String) (ds stdinL : List String) (sent : String) :
    ∀ (lines : List String) (st : St),
      isOk (chatLoopRun (pureEnv f ds stdinL) sent lines st) = true ↔ sent ∈ lines := by
  intro lines
  induction lines with
  | nil => intro st; simp [chatLoopRun, isOk]
  | cons l rest ih =>
      intro st
      by_cases hl : l = sent
      · simp [chatLoopRun, hl, isOk]
      · have hl2 : ¬ sent = l := fun h => hl h.symm
        simp only [chatLoopRun, pureEnv_respond, if_neg hl]
        rw [ih]
        simp [List.mem_cons, hl2]

theorem loop_persists_any (env : Env) (sent : String) :
    ∀ (lines : List String) (st : St),
      persistWrites (finalSt (chatLoopRun env sent lines st)).events
        = persistWrites st.events := by
  intro lines
  induction lines with
  | nil => intro st; simp [chatLoopRun, finalSt, persistWrites]
  | cons l rest ih =>
      intro st
      by_cases hl : l = sent
      · simp [chatLoopRun, hl, finalSt, persistWrites]
      · rcases hr : env.respond l with e | r
        · simp [chatLoopRun, hl, hr, finalSt, persistWrites]
        · simp only [chatLoopRun, hr, if_neg hl]
          rw [ih]
          simp [persistWrites]

theorem loop_persistPath_any (env : Env) (sent : String) :
    ∀ (lines : List String) (st : St),
      (finalSt (chatLoopRun env sent lines st)).persistPath = st.persistPath := by
  intro lines
  induction lines with
  | nil => intro st; simp [chatLoopRun, finalSt]
  | cons l rest ih =>
      intro st
      by_cases hl : l = sent
      · simp [chatLoopRun, hl, finalSt]
      · rcases hr : env.respond l with e | r
        · simp [chatLoopRun, hl, hr, finalSt]
        · simp only [chatLoopRun, hr, if_neg hl]
          rw [ih]

/-- A statement free of persistent-store setup leaves the persistence path
unset and adds no persistent write, whatever the environment does. -/
theorem exec_no_persist (env : Env) (s : Stmt) (hs : persistFreeStmt s = true) :
    ∀ st : St, st.persistPath = none →
      (finalSt (exec env s st)).persistPath = none
      ∧ persistWrites (finalSt (exec env s st)).events = persistWrites st.events := by
  induction s with
  | loadDotenv =>
      intro st hp
      simp [exec, finalSt, persistWrites, hp]
  | makeLLM m t k =>
      intro st hp
      simp [exec, finalSt, hp]
  | loadDocs dir =>
      intro st hp
      rcases hd : env.docs dir with e | dlist
      · simp [exec, hd, finalSt, persistWrites, hp]
      · simp [exec, hd, finalSt, persistWrites, hp]
  | initPersistentClient p =>
      simp [persistFreeStmt] at hs
  | getOrCreateCollection c =>
      intro st hp
      simp [exec, finalSt, persistWrites, hp]
  | makeChromaVectorStore =>
      intro st hp
      simp [exec, finalSt, hp]
  | makeStorageContext =>
      intro st hp
      simp [exec, finalSt, hp]
  | buildIndex =>
      intro st hp
      obtain ⟨evs, lr, pp, cn, hstor⟩ := st
      simp only at hp
      subst hp
      cases hstor <;> cases cn <;> simp [exec, finalSt, persistWrites]
  | makeQueryEngine =>
      intro st hp
      simp [exec, finalSt, hp]
  | makeChatEngine m =>
      intro st hp
      simp [exec, finalSt, hp]
  | queryCall q =>
      intro st hp
      rcases hr : env.respond q with e | r
      · simp [exec, llmStep, hr, finalSt, persistWrites, hp]
      · simp [exec, llmStep, hr, finalSt, persistWrites, hp]
  | chatCall q =>
      intro st hp
      rcases hr : env.respond q with e | r
      · simp [exec, llmStep, hr, finalSt, persistWrites, hp]
      · simp [exec, llmStep, hr, finalSt, persistWrites, hp]
  | agentChat q =>
      intro st hp
      rcases hr : env.respond q with e | r
      · simp [exec, llmStep, hr, finalSt, persistWrites, hp]
      · simp [exec, llmStep, hr, finalSt, persistWrites, hp]
  | printResponse =>
      intro st hp
      simp [exec, finalSt, persistWrites, hp]
  | printString s =>
      intro st hp
      simp [exec, finalSt, persistWrites, hp]
  | defFunctionTool n =>
      intro st hp
      simp [exec, finalSt, hp]
  | makeReActAgent ts =>
      intro st hp
      simp [exec, finalSt, hp]
  | interactiveLoop sent =>
      intro st hp
      constructor
      · rw [exec_interactiveLoop, loop_persistPath_any]
        exact hp
      · rw [exec_interactiveLoop, loop_persists_any]
  | tryCatch b h ihb ihh =>
      intro st hp
      simp only [persistFreeStmt, Bool.and_eq_true] at hs
      have hb := ihb hs.1 st hp
      cases hres : exec env b st with
      | ok st1 =>
          rw [hres] at hb
          simp only [exec_tryCatch, hres]
          exact ⟨hb.1, hb.2⟩
      | exn e st1 =>
          rw [hres] at hb
          simp only [exec_tryCatch, hres]
          have hh := ihh hs.2 st1 hb.1
          exact ⟨hh.1, by rw [hh.2]; exact hb.2⟩

/-- A script free of persistent-store setup performs no persistent write,
whatever the environment does. -/
theorem execList_no_persist (env : Env) :
    ∀ prog : List Stmt, prog.all persistFreeStmt = true →
      ∀ st : St, st.persistPath = none →
        persistWrites (finalSt (execList env prog st)).events = persistWrites st.events := by
  intro prog
  induction prog with
  | nil =>
      intro _ st hp
      simp [execList, finalSt]
  | cons s rest ih =>
      intro hall st hp
      simp only [List.all_cons, Bool.and_eq_true] at hall
      have hx := exec_no_persist env s hall.1 st hp
      cases hres : exec env s st with
      | ok st1 =>
          rw [hres] at hx
          simp only [execList_cons, hres]
          rw [ih hall.2 st1 hx.1]
          exact hx.2
      | exn e st1 =>
          rw [hres] at hx
          simp only [execList_cons, hres]
          exact hx.2

theorem blockingTexts_loopEvents (f : String → String) (sent : String) :
    ∀ lines : List String,
      blockingTexts (loopEvents f sent lines) = lines.takeWhile (fun l => l != sent) := by
  intro lines
  induction lines with
  | nil => simp [loopEvents, blockingTexts_nil, blockingTexts_prompted]
  | cons l rest ih =>
      by_cases hl : l = sent
      · simp [loopEvents, hl, blockingTexts_nil, blockingTexts_prompted, bne_self_eq_false]
      · have hb : (l != sent) = true := by simp [bne_iff_ne, hl]
        rw [show loopEvents f sent (l :: rest)
            = Event.prompted "User: " :: Event.blockingCall l ::
              Event.printed ("Agent: " ++ f l) :: loopEvents f sent rest
          from by simp [loopEvents, hl]]
        rw [blockingTexts_prompted, blockingTexts_call, blockingTexts_printed, ih]
        simp [List.takeWhile_cons, hb]

theorem printedLines_loopEvents (f : String → String) (sent : String) :
    ∀ lines : List String,
      printedLines (loopEvents f sent lines)
        = (lines.takeWhile (fun l => l != sent)).map (fun l => "Agent: " ++ f l) := by
  intro lines
  induction lines with
  | nil => simp [loopEvents, printedLines_nil, printedLines_prompted]
  | cons l rest ih =>
      by_cases hl : l = sent
      · simp [loopEvents, hl, printedLines_nil, printedLines_prompted, bne_self_eq_false]
      · have hb : (l != sent) = true := by simp [bne_iff_ne, hl]
        rw [show loopEvents f sent (l :: rest)
            = Event.prompted "User: " :: Event.blockingCall l ::
              Event.printed ("Agent: " ++ f l) :: loopEvents f sent rest
          from by simp [loopEvents, hl]]
        rw [printedLines_prompted, printedLines_call, printedLines_printed, ih]
        simp [List.takeWhile_cons, hb]

theorem execList_single (env : Env) (s : Stmt) (st : St) :
    execList env [s] st = exec env s st := by
  have hunf : execList env [s] st
      = match exec env s st with
        | Res.ok st1 => execList env [] st1
        | Res.exn e st1 => Res.exn e st1 := rfl
  rw [hunf]
  cases exec env s st with
  | ok st1 => rfl
  | exn e st1 => rfl

/-- Running 03_rag_chatbot.py in a successful environment performs its
setup and then enters the interactive loop on the stdin lines. -/
theorem run03_eq (f : String → String) (ds lines : List String) :
    run (pureEnv f ds lines) script03
      = chatLoopRun (pureEnv f ds lines) "exit" lines
          ⟨[Event.envLoaded, Event.docsRead "pdf/", Event.indexBuilt], "", none, none, false⟩ := by
  have h : run (pureEnv f ds lines) script03
      = execList (pureEnv f ds lines) [Stmt.interactiveLoop "exit"]
          ⟨[Event.envLoaded, Event.docsRead "pdf/", Event.indexBuilt], "", none, none, false⟩ :=
    rfl
  rw [h, execList_single]
  rfl

/-! ## The claims -/

/-- C1: for every sequence of standard-input lines, the read loop of
03_rag_chatbot.py terminates (reaches its `break`) if and only if some line
equals the literal string "exit" exactly; before that it issues one chat
call and prints one `Agent: ` response per preceding line.  Exhaustion of
standard input without an "exit" line is the `EOFError` exception, not a
normal termination of the loop. -/
theorem c1_loop_terminates_iff_exit (f : String → String) (ds lines : List String) :
    (isOk (run (pureEnv f ds lines) script03) = true ↔ "exit" ∈ lines)
    ∧ blockingTexts (finalSt (run (pureEnv f ds lines) script03)).events
        = lines.takeWhile (fun l => l != "exit")
    ∧ printedLines (finalSt (run (pureEnv f ds lines) script03)).events
        = (lines.takeWhile (fun l => l != "exit")).map (fun l => "Agent: " ++ f l) := by
  refine ⟨?_, ?_, ?_⟩
  · rw [run03_eq]
    exact loop_isOk_pure f ds lines "exit" lines _
  · rw [run03_eq, loop_events_pure, blockingTexts_append, blockingTexts_loopEvents]
    rfl
  · rw [run03_eq, loop_events_pure, printedLines_append, printedLines_loopEvents]
    rfl

/-- C10: the terminating line is never sent to the chat engine: the chat
calls of 03_rag_chatbot.py are exactly the lines strictly preceding the
first "exit" line, "exit" is never among them, and the `Agent: ` lines
printed are exactly one per such preceding line. -/
theorem c10_exit_never_sent (f : String → String) (ds lines : List String) :
    blockingTexts (finalSt (run (pureEnv f ds lines) script03)).events
        = lines.takeWhile (fun l => l != "exit")
    ∧ "exit" ∉ blockingTexts (finalSt (run (pureEnv f ds lines) script03)).events
    ∧ printedLines (finalSt (run (pureEnv f ds lines) script03)).events
        = (lines.takeWhile (fun l => l != "exit")).map (fun l => "Agent: " ++ f l) := by
  have hb : blockingTexts (finalSt (run (pureEnv f ds lines) script03)).events
      = lines.takeWhile (fun l => l != "exit") := by
    rw [run03_eq, loop_events_pure, blockingTexts_append, blockingTexts_loopEvents]
    rfl
  refine ⟨hb, ?_, ?_⟩
  · rw [hb]
    intro hmem
    have := List.mem_takeWhile_imp hmem
    simp at this
  · rw [run03_eq, loop_events_pure, printedLines_append, printedLines_loopEvents]
    rfl

/-- C5: each script issues exactly one blocking network call per query (the
single hard-coded query of scripts 01, 02 and 04, the single agent message
of script 05, and one chat call per processed input line in script 03), and
every script completes except 03, which completes exactly when a stdin line
equals "exit". -/
theorem c5_one_call_per_query (f : String → String) (ds lines : List String) :
    blockingTexts (finalSt (run (pureEnv f ds lines) script01)).events = [mainQuery]
    ∧ blockingTexts (finalSt (run (pureEnv f ds lines) script02)).events = [mainQuery]
    ∧ blockingTexts (finalSt (run (pureEnv f ds lines) script04)).events = [mainQuery]
    ∧ blockingTexts (finalSt (run (pureEnv f ds lines) script05)).events = [agentQuery]
    ∧ isOk (run (pureEnv f ds lines) script01) = true
    ∧ isOk (run (pureEnv f ds lines) script02) = true
    ∧ isOk (run (pureEnv f ds lines) script04) = true
    ∧ isOk (run (pureEnv f ds lines) script05) = true
    ∧ blockingTexts (finalSt (run (pureEnv f ds lines) script03)).events
        = lines.takeWhile (fun l => l != "exit")
    ∧ (isOk (run (pureEnv f ds lines) script03) = true ↔ "exit" ∈ lines) := by
  refine ⟨rfl, rfl, rfl, rfl, rfl, rfl, rfl, rfl, ?_, ?_⟩
  · rw [run03_eq, loop_events_pure, blockingTexts_append, blockingTexts_loopEvents]
    rfl
  · rw [run03_eq]
    exact loop_isOk_pure f ds lines "exit" lines _

/-- C9: the arithmetic tools of 05_basic_Agent.py are pure functions equal
to their reference definitions, and `add` and `multiply` are commutative. -/
theorem c9_tools_pure (a b : ℚ) :
    multiply a b = a * b ∧ add a b = a + b ∧ subtract a b = a - b
    ∧ multiply a b = multiply b a ∧ add a b = add b a := by
  refine ⟨rfl, rfl, rfl, ?_, ?_⟩
  · simpa [multiply] using mul_comm a b
  · simpa [add] using add_comm a b

/-- C8: `divide` of 05_basic_Agent.py is an unguarded division: it returns
the quotient on a nonzero divisor and raises `ZeroDivisionError` on a zero
divisor, and script 05 contains no handler that could intercept it. -/
theorem c8_divide_unguarded :
    (∀ a b : ℚ, b ≠ 0 → divide a b = Except.ok (a / b))
    ∧ (∀ a : ℚ, divide a 0 = Except.error "ZeroDivisionError")
    ∧ script05.all (fun s => containsHandler s = false) := by
  refine ⟨?_, ?_, by decide⟩
  · intro a b hb
    simp [divide, hb]
  · intro a
    simp [divide]

/-- Witness for C8 at a concrete input. -/
theorem c8_divide_unguarded_witness :
    (3 : ℚ) ≠ 0 ∧ divide 6 3 = Except.ok (6 / 3) :=
  ⟨by norm_num, c8_divide_unguarded.1 6 3 (by norm_num)⟩

/-- C2 fails on the code: running 05_basic_Agent.py in a successful
environment reads no documents and builds no index, so it is false that
every one of the five scripts loads PDF documents and builds a vector
index. -/
theorem c2_counterexample_script05 :
    Event.docsRead "pdf/" ∉ (finalSt (run cEnv script05)).events
    ∧ Event.indexBuilt ∉ (finalSt (run cEnv script05)).events
    ∧ blockingTexts (finalSt (run cEnv script05)).events = [agentQuery] := by
  refine ⟨?_, ?_, rfl⟩ <;> decide

/-- C2 amended: scripts 01 to 04 load PDF documents from "pdf/" and build a
vector index; scripts 01, 02 and 04 issue exactly one query or chat call and
script 03 issues one chat call per input line preceding "exit"; script 05
loads no documents and builds no index but issues exactly one agent chat
call. -/
theorem c2_amended_loading_and_calls (f : String → String) (ds lines : List String) :
    (Event.docsRead "pdf/" ∈ (finalSt (run (pureEnv f ds lines) script01)).events
      ∧ Event.indexBuilt ∈ (finalSt (run (pureEnv f ds lines) script01)).events
      ∧ blockingTexts (finalSt (run (pureEnv f ds lines) script01)).events = [mainQuery])
    ∧ (Event.docsRead "pdf/" ∈ (finalSt (run (pureEnv f ds lines) script02)).events
      ∧ Event.indexBuilt ∈ (finalSt (run (pureEnv f ds lines) script02)).events
      ∧ blockingTexts (finalSt (run (pureEnv f ds lines) script02)).events = [mainQuery])
    ∧ (Event.docsRead "pdf/" ∈ (finalSt (run (pureEnv f ds lines) script03)).events
      ∧ Event.indexBuilt ∈ (finalSt (run (pureEnv f ds lines) script03)).events
      ∧ blockingTexts (finalSt (run (pureEnv f ds lines) script03)).events
          = lines.takeWhile (fun l => l != "exit"))
    ∧ (Event.docsRead "pdf/" ∈ (finalSt (run (pureEnv f ds lines) script04)).events
      ∧ Event.indexBuilt ∈ (finalSt (run (pureEnv f ds lines) script04)).events
      ∧ blockingTexts (finalSt (run (pureEnv f ds lines) script04)).events = [mainQuery])
    ∧ (Event.docsRead "pdf/" ∉ (finalSt (run (pureEnv f ds lines) script05)).events
      ∧ Event.indexBuilt ∉ (finalSt (run (pureEnv f ds lines) script05)).events
      ∧ blockingTexts (finalSt (run (pureEnv f ds lines) script05)).events = [agentQuery]) := by
  have h1 : (finalSt (run (pureEnv f ds lines) script01)).events
      = [Event.envLoaded, Event.docsRead "pdf/", Event.indexBuilt,
         Event.blockingCall mainQuery, Event.printed (f mainQuery)] := rfl
  have h2 : (finalSt (run (pureEnv f ds lines) script02)).events
      = [Event.envLoaded, Event.docsRead "pdf/", Event.indexBuilt,
         Event.blockingCall mainQuery, Event.printed (f mainQuery)] := rfl
  have h4 : (finalSt (run (pureEnv f ds lines) script04)).events
      = [Event.envLoaded, Event.docsRead "pdf/", Event.persistOpened "./chroma_db",
         Event.collectionCreated "quickstart", Event.indexBuilt,
         Event.persistWrite "./chroma_db" "quickstart", Event.blockingCall mainQuery,
         Event.printed "***********", Event.printed (f mainQuery)] := rfl
  have h5 : (finalSt (run (pureEnv f ds lines) script05)).events
      = [Event.envLoaded, Event.blockingCall agentQuery, Event.printed (f agentQuery)] := rfl
  refine ⟨⟨?_, ?_, rfl⟩, ⟨?_, ?_, rfl⟩, ⟨?_, ?_, ?_⟩, ⟨?_, ?_, rfl⟩, ⟨?_, ?_, rfl⟩⟩
  · rw [h1]; simp
  · rw [h1]; simp
  · rw [h2]; simp
  · rw [h2]; simp
  · rw [run03_eq, loop_events_pure]; simp
  · rw [run03_eq, loop_events_pure]; simp
  · rw [run03_eq, loop_events_pure, blockingTexts_append, blockingTexts_loopEvents]; rfl
  · rw [h4]; simp
  · rw [h4]; simp
  · rw [h5]; simp
  · rw [h5]; simp

/-- C3 fails on the code: running 04_custom_rag.py writes the vector
collection "quickstart" into the persistent store directory "./chroma_db",
state that survives the invocation, so it is false that no script writes to
a persisting local path or shared store. -/
theorem c3_counterexample_script04 :
    Event.persistWrite "./chroma_db" "quickstart" ∈ (finalSt (run cEnv script04)).events := by
  decide

/-- C3 amended: scripts 01, 02, 03 and 05 perform no persistent write in
any environment; script 04 persists the vector collection "quickstart"
under "./chroma_db", and that write survives the invocation. -/
theorem c3_amended_only_04_persists :
    (∀ env : Env,
      persistWrites (finalSt (run env script01)).events = []
      ∧ persistWrites (finalSt (run env script02)).events = []
      ∧ persistWrites (finalSt (run env script03)).events = []
      ∧ persistWrites (finalSt (run env script05)).events = [])
    ∧ (∀ (f : String → String) (ds lines : List String),
        persistWrites (finalSt (run (pureEnv f ds lines) script04)).events
          = [("./chroma_db", "quickstart")]) := by
  constructor
  · intro env
    refine ⟨?_, ?_, ?_, ?_⟩ <;>
      exact execList_no_persist env _ (by decide) initSt rfl
  · intro f ds lines
    rfl

/-- C4: exactly one of the five scripts constructs a persistent
vector-store client, namely script 04, which persists the collection
"quickstart" under "./chroma_db"; the other four scripts never do. -/
theorem c4_exactly_one_persists :
    usesPersistentClient script01 = false
    ∧ usesPersistentClient script02 = false
    ∧ usesPersistentClient script03 = false
    ∧ usesPersistentClient script05 = false
    ∧ usesPersistentClient script04 = true
    ∧ allScripts.countP usesPersistentClient = 1
    ∧ ∀ (f : String → String) (ds lines : List String),
        Event.persistWrite "./chroma_db" "quickstart"
          ∈ (finalSt (run (pureEnv f ds lines) script04)).events := by
  refine ⟨by decide, by decide, by decide, by decide, by decide, by decide, ?_⟩
  intro f ds lines
  have h4 : (finalSt (run (pureEnv f ds lines) script04)).events
      = [Event.envLoaded, Event.docsRead "pdf/", Event.persistOpened "./chroma_db",
         Event.collectionCreated "quickstart", Event.indexBuilt,
         Event.persistWrite "./chroma_db" "quickstart", Event.blockingCall mainQuery,
         Event.printed "***********", Event.printed (f mainQuery)] := rfl
  rw [h4]
  simp

/-- C6: no script contains a `try/except` (or any other recovery) form, and
a failure of a library call propagates out of the run unchanged: a failing
document load aborts scripts 01 to 04 with that error, a failing LLM call
aborts scripts 01, 02, 04 and 05 with that error, and a failing chat call
inside the loop aborts script 03 with that error. -/
theorem c6_no_error_handling :
    (allScripts.all (fun sc => sc.all (fun s => !containsHandler s)) = true)
    ∧ (∀ (env : Env) (e : String), env.docs "pdf/" = Except.error e →
        errOf (run env script01) = some e ∧ errOf (run env script02) = some e
        ∧ errOf (run env script03) = some e ∧ errOf (run env script04) = some e)
    ∧ (∀ (env : Env) (dlist : List String) (e : String),
        env.docs "pdf/" = Except.ok dlist → env.respond mainQuery = Except.error e →
        errOf (run env script01) = some e ∧ errOf (run env script02) = some e
        ∧ errOf (run env script04) = some e)
    ∧ (∀ (env : Env) (e : String), env.respond agentQuery = Except.error e →
        errOf (run env script05) = some e)
    ∧ (∀ (env : Env) (st : St) (l : String) (rest : List String) (e : String),
        l ≠ "exit" → env.respond l = Except.error e →
        errOf (chatLoopRun env "exit" (l :: rest) st) = some e) := by
  refine ⟨by decide, ?_, ?_, ?_, ?_⟩
  · intro env e hd
    have h1 : run env script01
        = execList env [Stmt.loadDocs "pdf/", Stmt.buildIndex, Stmt.makeQueryEngine,
            Stmt.queryCall mainQuery, Stmt.printResponse]
            ⟨[Event.envLoaded], "", none, none, false⟩ := rfl
    have h2 : run env script02
        = execList env [Stmt.loadDocs "pdf/", Stmt.buildIndex, Stmt.makeChatEngine "best",
            Stmt.chatCall mainQuery, Stmt.printResponse]
            ⟨[Event.envLoaded], "", none, none, false⟩ := rfl
    have h3 : run env script03
        = execList env [Stmt.loadDocs "pdf/", Stmt.buildIndex,
            Stmt.makeChatEngine "condense_question", Stmt.interactiveLoop "exit"]
            ⟨[Event.envLoaded], "", none, none, false⟩ := rfl
    have h4 : run env script04
        = execList env [Stmt.loadDocs "pdf/", Stmt.initPersistentClient "./chroma_db",
            Stmt.getOrCreateCollection "quickstart", Stmt.makeChromaVectorStore,
            Stmt.makeStorageContext, Stmt.makeLLM "gpt-3.5-turbo" (some (1/10)) (some 512),
            Stmt.buildIndex, Stmt.makeQueryEngine, Stmt.queryCall mainQuery,
            Stmt.printString "***********", Stmt.printResponse]
            ⟨[Event.envLoaded], "", none, none, false⟩ := rfl
    refine ⟨?_, ?_, ?_, ?_⟩
    · simp only [h1, execList_cons, exec_loadDocs, hd]; rfl
    · simp only [h2, execList_cons, exec_loadDocs, hd]; rfl
    · simp only [h3, execList_cons, exec_loadDocs, hd]; rfl
    · simp only [h4, execList_cons, exec_loadDocs, hd]; rfl
  · intro env dlist e hdocs hresp
    have h1 : run env script01
        = execList env [Stmt.loadDocs "pdf/", Stmt.buildIndex, Stmt.makeQueryEngine,
            Stmt.queryCall mainQuery, Stmt.printResponse]
            ⟨[Event.envLoaded], "", none, none, false⟩ := rfl
    have h2 : run env script02
        = execList env [Stmt.loadDocs "pdf/", Stmt.buildIndex, Stmt.makeChatEngine "best",
            Stmt.chatCall mainQuery, Stmt.printResponse]
            ⟨[Event.envLoaded], "", none, none, false⟩ := rfl
    have h4 : run env script04
        = execList env [Stmt.loadDocs "pdf/", Stmt.initPersistentClient "./chroma_db",
            Stmt.getOrCreateCollection "quickstart", Stmt.makeChromaVectorStore,
            Stmt.makeStorageContext, Stmt.makeLLM "gpt-3.5-turbo" (some (1/10)) (some 512),
            Stmt.buildIndex, Stmt.makeQueryEngine, Stmt.queryCall mainQuery,
            Stmt.printString "***********", Stmt.printResponse]
            ⟨[Event.envLoaded], "", none, none, false⟩ := rfl
    refine ⟨?_, ?_, ?_⟩
    · simp [h1, execList_cons, execList_nil, exec, exec_loadDocs, llmStep, hdocs, hresp, errOf]
    · simp [h2, execList_cons, execList_nil, exec, exec_loadDocs, llmStep, hdocs, hresp, errOf]
    · simp [h4, execList_cons, execList_nil, exec, exec_loadDocs, llmStep, hdocs, hresp, errOf]
  · intro env e hresp
    have h5 : run env script05
        = execList env [Stmt.agentChat agentQuery, Stmt.printResponse]
            ⟨[Event.envLoaded], "", none, none, false⟩ := rfl
    simp [h5, execList_cons, execList_nil, exec, llmStep, hresp, errOf]
  · intro env st l rest e hl hresp
    simp [chatLoopRun, hl, hresp, errOf]

/-- Witness for C6 at a concrete failing environment. -/
theorem c6_no_error_handling_witness :
    errOf (run failEnv script01) = some "FileNotFoundError" :=
  (c6_no_error_handling.2.1 failEnv "FileNotFoundError" rfl).1

/-- C7: in an environment where every call succeeds and the response is
non-empty, each script completes and prints the response it obtained:
scripts 01 and 02 print exactly the response of their hard-coded query,
script 04 prints a separator line and then exactly that response, script 05
prints exactly the agent response, and script 03 prints one `Agent: ` line
per processed input line. -/
theorem c7_prints_response (f : String → String) (ds lines : List String)
    (h1 : f mainQuery ≠ "") (h2 : f agentQuery ≠ "") :
    (isOk (run (pureEnv f ds lines) script01) = true
      ∧ printedLines (finalSt (run (pureEnv f ds lines) script01)).events = [f mainQuery])
    ∧ (isOk (run (pureEnv f ds lines) script02) = true
      ∧ printedLines (finalSt (run (pureEnv f ds lines) script02)).events = [f mainQuery])
    ∧ (isOk (run (pureEnv f ds lines) script04) = true
      ∧ printedLines (finalSt (run (pureEnv f ds lines) script04)).events
          = ["***********", f mainQuery])
    ∧ (isOk (run (pureEnv f ds lines) script05) = true
      ∧ printedLines (finalSt (run (pureEnv f ds lines) script05)).events = [f agentQuery])
    ∧ printedLines (finalSt (run (pureEnv f ds lines) script03)).events
        = (lines.takeWhile (fun l => l != "exit")).map (fun l => "Agent: " ++ f l)
    ∧ f mainQuery ≠ "" ∧ f agentQuery ≠ "" := by
  refine ⟨⟨rfl, rfl⟩, ⟨rfl, rfl⟩, ⟨rfl, rfl⟩, ⟨rfl, rfl⟩, ?_, h1, h2⟩
  rw [run03_eq, loop_events_pure, printedLines_append, printedLines_loopEvents]
  rfl

/-- Witness for C7 at a concrete responder. -/
theorem c7_prints_response_witness :
    (isOk (run (pureEnv (fun _ => "ok") ["d"] []) script01) = true
      ∧ printedLines (finalSt (run (pureEnv (fun _ => "ok") ["d"] []) script01)).events = ["ok"])
    ∧ (isOk (run (pureEnv (fun _ => "ok") ["d"] []) script02) = true
      ∧ printedLines (finalSt (run (pureEnv (fun _ => "ok") ["d"] []) script02)).events = ["ok"])
    ∧ (isOk (run (pureEnv (fun _ => "ok") ["d"] []) script04) = true
      ∧ printedLines (finalSt (run (pureEnv (fun _ => "ok") ["d"] []) script04)).events
          = ["***********", "ok"])
    ∧ (isOk (run (pureEnv (fun _ => "ok") ["d"] []) script05) = true
      ∧ printedLines (finalSt (run (pureEnv (fun _ => "ok") ["d"] []) script05)).events = ["ok"])
    ∧ printedLines (finalSt (run (pureEnv (fun _ => "ok") ["d"] []) script03)).events = []
    ∧ ("ok" : String) ≠ "" ∧ ("ok" : String) ≠ "" :=
  c7_prints_response (fun _ => "ok") ["d"] [] (by decide) (by decide)

end LlamaScripts
